import Mathlib

/-!
Verification of the aggregation/fan-out request handler of the Teller MVP
backend (`teller_mvp/api/main.py`), against its natural-language
specification.

The handler is shallowly embedded: Python/JSON values become an inductive
`Json` type, the upstream banking API becomes an oracle mapping each request
to a fixed response, Python exceptions become an `Except` error channel, and
the sequence of upstream HTTP requests issued is threaded through explicitly
as a trace, so that claims about which calls are made (and with which
parameters) are statable.  Response bodies are modelled as already-parsed
JSON values (a JSON-decode failure of a 2xx body is a further
`except Exception` path to a 500, not exercised by any claim here).
-/

/-- A JSON / Python value, as handled dynamically by the Python source.
Numbers are modelled as integers (no claim involves fractional values). -/
inductive Json where
  | null : Json
  | bool : Bool → Json
  | num : Int → Json
  | str : String → Json
  | arr : List Json → Json
  | obj : List (String × Json) → Json
deriving Repr

/-- Python truthiness (`if not x:` / `x or y`) for the values of `Json`:
`None`, `False`, `0`, `""`, `[]` and `{}` are falsy, everything else truthy. -/
def Json.truthy : Json → Bool
  | .null => false
  | .bool b => b
  | .num n => n != 0
  | .str s => s != ""
  | .arr l => !l.isEmpty
  | .obj l => !l.isEmpty

/-- Python's type name of a value, as it appears in `AttributeError` text. -/
def Json.pyTypeName : Json → String
  | .null => "NoneType"
  | .bool _ => "bool"
  | .num _ => "int"
  | .str _ => "str"
  | .arr _ => "list"
  | .obj _ => "dict"

/-- Whether a value is a JSON object (a Python `dict`). -/
def Json.isObj : Json → Bool
  | .obj _ => true
  | _ => false

/-- Whether a value is a JSON array (a Python `list`), as tested by
`isinstance(transactions, list)`. -/
def Json.isArr : Json → Bool
  | .arr _ => true
  | _ => false

/-- `d.get(key)` on a value known to be a dict: the first binding of `key`,
or `None` when absent (Python dicts have unique keys, so first-match lookup
agrees with dict semantics). -/
def dictGet (fields : List (String × Json)) (key : String) : Json :=
  (fields.lookup key).getD Json.null

/-- Total field access used only to STATE properties about assembled output
objects (never to embed source code): the field of an object, `null`
otherwise. -/
def jfield (v : Json) (key : String) : Json :=
  match v with
  | .obj fields => dictGet fields key
  | _ => Json.null

/-- Python `x or {}`: `x` when truthy, else the empty dict. Embeds the
source's `(acct.get("institution") or {})` and `(balance or {})`. -/
def pyOrEmptyDict (v : Json) : Json :=
  if v.truthy then v else Json.obj []

/-- The Python exceptions that can arise inside the handler's `try:` block. -/
inductive PyExc where
  /-- `httpx.HTTPStatusError` from `raise_for_status()`: carries the
  response's status code and body text. -/
  | httpStatusError : Nat → String → PyExc
  /-- `fastapi.HTTPException(status_code, detail)` raised inside the `try`
  (the 502 "Unexpected accounts payload" case). -/
  | httpException : Nat → String → PyExc
  /-- `AttributeError` (e.g. `.get` on a non-dict), with its message. -/
  | attributeError : String → PyExc
  /-- `RuntimeError` from `_make_client`, with its message. -/
  | runtimeError : String → PyExc
deriving Repr

/-- A string wrapped in single-quote characters (code point 39), as Python
messages render names. -/
def pyQuote (s : String) : String :=
  String.singleton (Char.ofNat 39) ++ s ++ String.singleton (Char.ofNat 39)

/-- CPython's `AttributeError` message for `.get` on a non-dict value. -/
def noGetAttrMsg (v : Json) : String :=
  pyQuote v.pyTypeName ++ " object has no attribute " ++ pyQuote "get"

/-- The 400 detail of line 96. -/
def missingTokenMsg : String :=
  "Missing " ++ pyQuote "accessToken" ++ " in request body"

/-- `e.get(key)` on an arbitrary value: Python raises `AttributeError`
unless the value is a dict. -/
def pyGet (v : Json) (key : String) : Except PyExc Json :=
  match v with
  | .obj fields => .ok (dictGet fields key)
  | _ => .error (.attributeError (noGetAttrMsg v))

/-- An upstream HTTP response: status code, parsed JSON body (`r.json()`),
and raw body text (`r.text`). -/
structure Resp where
  status : Nat
  body : Json
  text : String
deriving Repr

/-- httpx success range: `raise_for_status()` passes exactly the 2xx codes. -/
def is2xx (status : Nat) : Bool :=
  200 ≤ status && status < 300

/-- The three upstream endpoints the handler may call.  `getTransactions`
records the `count` query parameter the call carries
(`params = {"count": max_count}`). -/
inductive UpReq where
  | listAccounts : UpReq
  | getBalances : Json → UpReq
  | getTransactions : Json → Json → UpReq
deriving Repr

/-- The upstream API for the duration of one aggregation request: a fixed
response for `GET /accounts`, and responses for the per-account balance and
transaction calls, keyed by the account identifier value interpolated into
the URL (and, for transactions, the `count` parameter sent). -/
structure Upstream where
  accounts : Resp
  balances : Json → Resp
  transactions : Json → Json → Resp

/-- Process-wide configuration, read from the environment at startup:
`TELLER_ENV` (already normalised), `TELLER_CERT_PATH`, `TELLER_KEY_PATH`
(`none` models an unset environment variable). -/
structure Config where
  env : String
  certPath : Option String
  keyPath : Option String

/-- `TELLER_ENV = (os.getenv("TELLER_ENV") or "sandbox").lower().strip()`:
an unset or empty variable defaults to `"sandbox"`, then lower-case and
strip. -/
def normalizeEnv (raw : Option String) : String :=
  (match raw with
   | none => "sandbox"
   | some s => if s = "" then "sandbox" else s).toLower.trim

/-- Python truthiness of an optional environment string
(`if not TELLER_CERT_PATH`): unset or empty is falsy. -/
def optTruthy : Option String → Bool
  | none => false
  | some s => s != ""

/-- `TELLER_API_BASE` constant of the source. -/
def TELLER_API_BASE : String := "https://api.teller.io"

/-- The httpx client as configured by `_make_client`: base URL, basic auth
pair (token as username, blank password), timeout, optional mTLS cert/key
pair.  Building it performs no network I/O. -/
structure Client where
  baseUrl : String
  auth : Json × String
  timeout : Nat
  cert : Option (String × String)

/-- `_make_client`: in development/production mode both cert and key paths
must be truthy, else `RuntimeError`; sandbox (and any other mode string)
attaches no certificate. -/
def _make_client (cfg : Config) (access_token : Json) : Except PyExc Client :=
  if cfg.env = "development" || cfg.env = "production" then
    if !optTruthy cfg.certPath || !optTruthy cfg.keyPath then
      .error (.runtimeError
        "TELLER_CERT_PATH and TELLER_KEY_PATH are required in development/production.")
    else
      .ok ⟨TELLER_API_BASE, (access_token, ""), 30,
           some (cfg.certPath.getD "", cfg.keyPath.getD "")⟩
  else
    .ok ⟨TELLER_API_BASE, (access_token, ""), 30, none⟩

/-- The per-account step of the loop (lines 109–139 of the source): skip an
entry with a falsy `id`, otherwise call balances, `raise_for_status`, call
transactions with the `count` parameter, `raise_for_status`, then assemble
the result record.  Returns the assembled record (or `none` for a skipped
entry) together with the list of upstream requests issued. -/
def processAcct (up : Upstream) (max_count : Json) (acct : Json) :
    Except PyExc (Option Json) × List UpReq :=
  match acct with
  | .obj fields =>
    let acct_id := dictGet fields "id"
    if !acct_id.truthy then
      (.ok none, [])
    else
      let rb := up.balances acct_id
      if !is2xx rb.status then
        (.error (.httpStatusError rb.status rb.text), [.getBalances acct_id])
      else
        let balance := rb.body
        let rt := up.transactions acct_id max_count
        let reqs : List UpReq := [.getBalances acct_id, .getTransactions acct_id max_count]
        if !is2xx rt.status then
          (.error (.httpStatusError rt.status rt.text), reqs)
        else
          let transactions := rt.body
          match pyGet (pyOrEmptyDict (dictGet fields "institution")) "name" with
          | .error e => (.error e, reqs)
          | .ok institution =>
            match pyGet (pyOrEmptyDict balance) "available" with
            | .error e => (.error e, reqs)
            | .ok available =>
              match pyGet (pyOrEmptyDict balance) "ledger" with
              | .error e => (.error e, reqs)
              | .ok ledger =>
                (.ok (some (Json.obj [
                  ("account", Json.obj [
                    ("id", acct_id),
                    ("name", dictGet fields "name"),
                    ("institution", institution),
                    ("last_four", dictGet fields "last_four"),
                    ("type", dictGet fields "type")]),
                  ("balance", Json.obj [
                    ("available", available),
                    ("ledger", ledger)]),
                  ("transactions", if transactions.isArr then transactions
                                   else Json.arr [])])), reqs)
  | other =>
    (.error (.attributeError (noGetAttrMsg other)), [])

/-- The `for acct in accounts:` loop: process entries in listing order,
appending each assembled record to `results`; the first exception aborts the
rest of the loop. -/
def processAccts (up : Upstream) (max_count : Json) :
    List Json → Except PyExc (List Json) × List UpReq
  | [] => (.ok [], [])
  | acct :: rest =>
    match processAcct up max_count acct with
    | (.error e, tr) => (.error e, tr)
    | (.ok none, tr) =>
      let (r, tr2) := processAccts up max_count rest
      (r, tr ++ tr2)
    | (.ok (some j), tr) =>
      match processAccts up max_count rest with
      | (.ok rs, tr2) => (.ok (j :: rs), tr ++ tr2)
      | (.error e, tr2) => (.error e, tr ++ tr2)

/-- The body of the handler's `try:` block (lines 99–141): build the client,
list accounts, check the payload is a list, run the per-account loop, wrap
the results. -/
def fetchTry (cfg : Config) (up : Upstream) (access_token max_count : Json) :
    Except PyExc Json × List UpReq :=
  match _make_client cfg access_token with
  | .error e => (.error e, [])
  | .ok _client =>
    let r := up.accounts
    if !is2xx r.status then
      (.error (.httpStatusError r.status r.text), [.listAccounts])
    else
      match r.body with
      | .arr accounts =>
        match processAccts up max_count accounts with
        | (.ok results, tr) =>
          (.ok (Json.obj [("accounts", Json.arr results)]), .listAccounts :: tr)
        | (.error e, tr) => (.error e, .listAccounts :: tr)
      | _ =>
        (.error (.httpException 502 "Unexpected accounts payload"), [.listAccounts])

/-- The HTTP error surfaced to the caller: a `fastapi.HTTPException`
propagating out of the handler. -/
structure HTTPError where
  status : Nat
  detail : String
deriving Repr

/-- The `except` clauses (lines 143–148).  `httpx.HTTPStatusError` is
re-raised with the upstream status and body text; every other exception —
including the `HTTPException(502, ...)` raised at line 106, which is itself
an `Exception` — is caught by `except Exception` and re-raised as a 500
whose detail is Python's `str(e)` (for a Starlette `HTTPException` that is
`f"{status_code}: {detail}"`). -/
def handleExc : PyExc → HTTPError
  | .httpStatusError status text =>
    ⟨status, "Teller API error [" ++ toString status ++ "]: " ++ text⟩
  | .httpException status detail => ⟨500, toString status ++ ": " ++ detail⟩
  | .attributeError msg => ⟨500, msg⟩
  | .runtimeError msg => ⟨500, msg⟩

/-- `access_token = (payload or {}).get("accessToken")` (line 94; the body,
typed `Dict[str, Any]`, is a list of key/value bindings here, and `payload
or {}` is the identity on it). -/
def tokenOf (payload : List (String × Json)) : Json :=
  dictGet payload "accessToken"

/-- `max_count = (payload or {}).get("count") or 50` (line 98): a falsy
`count` — absent, `null`, `0`, `""`, ... — falls back to `50`. -/
def countOf (payload : List (String × Json)) : Json :=
  let c := dictGet payload "count"
  if c.truthy then c else Json.num 50

/-- The `/api/fetch` handler `fetch_all`: validate the token (before the
`try:` block, so the 400 propagates as-is), then run the aggregation and map
any exception through the `except` clauses.  The second component is the
full sequence of upstream requests issued. -/
def fetch_all (cfg : Config) (up : Upstream) (payload : List (String × Json)) :
    Except HTTPError Json × List UpReq :=
  let access_token := tokenOf payload
  if !access_token.truthy then
    (.error ⟨400, missingTokenMsg⟩, [])
  else
    match fetchTry cfg up access_token (countOf payload) with
    | (.ok v, tr) => (.ok v, tr)
    | (.error e, tr) => (.error (handleExc e), tr)

/-- Success condition of one loop iteration, read off the branch structure
of `processAcct`: either the entry's `id` is falsy (it is skipped), or both
upstream calls are 2xx and the two `.get`-after-`or {}` accesses land on
dicts.  A non-dict entry is never ok (its `.get("id")` raises). -/
def entryOk (up : Upstream) (max_count : Json) (a : Json) : Bool :=
  match a with
  | .obj fields =>
    let acct_id := dictGet fields "id"
    if !acct_id.truthy then true
    else
      let rb := up.balances acct_id
      let rt := up.transactions acct_id max_count
      is2xx rb.status && is2xx rt.status &&
        (pyOrEmptyDict (dictGet fields "institution")).isObj &&
        (pyOrEmptyDict rb.body).isObj
  | _ => false

/-- The record `processAcct` appends for an entry on its success path
(`none` for a skipped identifier-less entry). -/
def resultOf (up : Upstream) (max_count : Json) (a : Json) : Option Json :=
  match a with
  | .obj fields =>
    let acct_id := dictGet fields "id"
    if !acct_id.truthy then none
    else
      let rb := up.balances acct_id
      let rt := up.transactions acct_id max_count
      some (Json.obj [
        ("account", Json.obj [
          ("id", acct_id),
          ("name", dictGet fields "name"),
          ("institution", jfield (pyOrEmptyDict (dictGet fields "institution")) "name"),
          ("last_four", dictGet fields "last_four"),
          ("type", dictGet fields "type")]),
        ("balance", Json.obj [
          ("available", jfield (pyOrEmptyDict rb.body) "available"),
          ("ledger", jfield (pyOrEmptyDict rb.body) "ledger")]),
        ("transactions", if rt.body.isArr then rt.body else Json.arr [])])
  | _ => none

/-- The upstream requests one successful loop iteration issues. -/
def traceOfEntry (_up : Upstream) (max_count : Json) (a : Json) : List UpReq :=
  match a with
  | .obj fields =>
    let acct_id := dictGet fields "id"
    if !acct_id.truthy then []
    else [.getBalances acct_id, .getTransactions acct_id max_count]
  | _ => []

/-- The `id` value of an account entry (`null` for a non-dict entry). -/
def idOfEntry (a : Json) : Json :=
  jfield a "id"

section SanityChecks

/-- A sandbox configuration used for concrete evaluations. -/
def cfgSandbox : Config := ⟨"sandbox", none, none⟩

/-- A production configuration with both certificate paths unset. -/
def cfgProdNoCert : Config := ⟨"production", none, none⟩

/-- A well-formed upstream account entry with identifier `"a1"`. -/
def acctChecking : Json :=
  Json.obj [("id", Json.str "a1"),
    ("name", Json.str "Checking"),
    ("institution", Json.obj [("name", Json.str "Chase")]),
    ("last_four", Json.str "1234"), ("type", Json.str "depository")]

/-- A well-formed balances response body. -/
def balBody : Resp :=
  ⟨200, Json.obj [("available", Json.str "100.00"),
    ("ledger", Json.str "100.00")], "{...}"⟩

/-- A small healthy upstream: one account `"a1"` at institution `"Chase"`,
a balance object, and an empty transaction list. -/
def upHealthy : Upstream where
  accounts := ⟨200, Json.arr [acctChecking], "[...]"⟩
  balances := fun _ => balBody
  transactions := fun _ _ => ⟨200, Json.arr [], "[]"⟩

/-- An upstream whose accounts listing is 2xx but not a list. -/
def upAccountsNotList : Upstream where
  accounts := ⟨200, Json.obj [("error", Json.str "bad")], "{...}"⟩
  balances := fun _ => balBody
  transactions := fun _ _ => ⟨200, Json.arr [], "[]"⟩

/-- An upstream whose accounts call fails with 404 and whose response body
happens to echo the caller's access token `"tok"`. -/
def upAccounts404Echo : Upstream where
  accounts := ⟨404, Json.null, "tok"⟩
  balances := fun _ => balBody
  transactions := fun _ _ => ⟨200, Json.arr [], "[]"⟩

/-- An upstream listing two identified accounts where the balances call for
the second account `"a2"` fails with 503. -/
def upBalance503 : Upstream where
  accounts := ⟨200, Json.arr [acctChecking, Json.obj [("id", Json.str "a2")]], "[...]"⟩
  balances := fun i =>
    match i with
    | .str "a2" => ⟨503, Json.null, "upstream down"⟩
    | _ => balBody
  transactions := fun _ _ => ⟨200, Json.arr [], "[]"⟩

/-- An upstream like `upHealthy` whose transactions response body is an
object, not a list. -/
def upTxObj : Upstream where
  accounts := ⟨200, Json.arr [acctChecking], "[...]"⟩
  balances := fun _ => balBody
  transactions := fun _ _ => ⟨200, Json.obj [("oops", Json.bool true)], "{...}"⟩

/-- An upstream whose accounts listing contains a healthy entry followed by
a bare string entry (not a mapping). -/
def upEntryNotDict : Upstream where
  accounts := ⟨200, Json.arr [acctChecking, Json.str "oops"], "[...]"⟩
  balances := fun _ => balBody
  transactions := fun _ _ => ⟨200, Json.arr [], "[]"⟩

example :
    fetch_all cfgSandbox upHealthy [("accessToken", Json.str "tok")] =
      (.ok (Json.obj [("accounts", Json.arr [Json.obj [
        ("account", Json.obj [
          ("id", Json.str "a1"), ("name", Json.str "Checking"),
          ("institution", Json.str "Chase"),
          ("last_four", Json.str "1234"), ("type", Json.str "depository")]),
        ("balance", Json.obj [("available", Json.str "100.00"),
          ("ledger", Json.str "100.00")]),
        ("transactions", Json.arr [])]])]),
       [.listAccounts, .getBalances (Json.str "a1"),
        .getTransactions (Json.str "a1") (Json.num 50)]) := rfl

example :
    fetch_all cfgSandbox upHealthy [] = (.error ⟨400, missingTokenMsg⟩, []) := rfl

end SanityChecks

/-! ### Characterisation of the per-account loop -/

theorem pyGet_of_isObj (v : Json) (key : String) (h : v.isObj = true) :
    pyGet v key = .ok (jfield v key) := by
  cases v <;> simp_all [Json.isObj, pyGet, jfield]

theorem processAcct_of_entryOk (up : Upstream) (mc a : Json)
    (h : entryOk up mc a = true) :
    processAcct up mc a = (.ok (resultOf up mc a), traceOfEntry up mc a) := by
  cases a with
  | obj fields =>
    simp only [entryOk] at h
    simp only [processAcct, resultOf, traceOfEntry]
    cases hid : (dictGet fields "id").truthy with
    | false => simp [hid]
    | true =>
      simp only [hid, Bool.not_true, Bool.false_eq_true, if_false, if_neg] at h ⊢
      simp only [Bool.and_eq_true] at h
      obtain ⟨⟨⟨h1, h2⟩, h3⟩, h4⟩ := h
      simp [h1, h2, pyGet_of_isObj _ _ h3, pyGet_of_isObj _ _ h4]
  | null => simp [entryOk] at h
  | bool b => simp [entryOk] at h
  | num n => simp [entryOk] at h
  | str s => simp [entryOk] at h
  | arr l => simp [entryOk] at h

theorem processAccts_of_entryOk (up : Upstream) (mc : Json) (l : List Json)
    (h : ∀ a ∈ l, entryOk up mc a = true) :
    processAccts up mc l =
      (.ok (l.filterMap (resultOf up mc)), l.flatMap (traceOfEntry up mc)) := by
  induction l with
  | nil => simp [processAccts]
  | cons a rest ih =>
    have ha : entryOk up mc a = true := h a (by simp)
    have hr := ih (fun x hx => h x (by simp [hx]))
    simp only [processAccts, processAcct_of_entryOk up mc a ha, hr]
    cases hres : resultOf up mc a <;> simp [hres]

theorem processAccts_append_of_entryOk (up : Upstream) (mc : Json)
    (l1 l2 : List Json) (h : ∀ a ∈ l1, entryOk up mc a = true) :
    processAccts up mc (l1 ++ l2) =
      ((processAccts up mc l2).1.map (fun rs => l1.filterMap (resultOf up mc) ++ rs),
       l1.flatMap (traceOfEntry up mc) ++ (processAccts up mc l2).2) := by
  induction l1 with
  | nil =>
    rcases hp : processAccts up mc l2 with ⟨r, tr⟩
    cases r <;> simp [hp, Except.map]
  | cons a rest ih =>
    have ha : entryOk up mc a = true := h a (by simp)
    have hr := ih (fun x hx => h x (by simp [hx]))
    rcases hp : processAccts up mc l2 with ⟨r2, tr2⟩
    rw [hp] at hr
    simp only [List.cons_append, processAccts, processAcct_of_entryOk up mc a ha, hr]
    cases hres : resultOf up mc a with
    | none => cases r2 <;> simp [Except.map, hres, hr]
    | some j => cases r2 <;> simp [Except.map, hres, hr]

theorem processAccts_cons_error (up : Upstream) (mc a : Json) (rest : List Json)
    (e : PyExc) (h : (processAcct up mc a).1 = .error e) :
    (processAccts up mc (a :: rest)).1 = .error e := by
  rcases hp : processAcct up mc a with ⟨r, tr⟩
  rw [hp] at h
  cases r with
  | error e2 =>
    simp only [] at h
    cases h
    simp [processAccts, hp]
  | ok v => simp at h

/-- Reduction of `fetch_all` to the loop when the token is truthy, the
client builds, the accounts call is 2xx with a list body, and the loop
succeeds. -/
theorem fetch_all_loop_ok (cfg : Config) (up : Upstream)
    (payload : List (String × Json)) (accts rs : List Json) (tr : List UpReq)
    (htok : (tokenOf payload).truthy = true)
    (hcl : ∃ c, _make_client cfg (tokenOf payload) = .ok c)
    (hacc : is2xx up.accounts.status = true)
    (hbody : up.accounts.body = Json.arr accts)
    (hloop : processAccts up (countOf payload) accts = (.ok rs, tr)) :
    fetch_all cfg up payload =
      (.ok (Json.obj [("accounts", Json.arr rs)]), .listAccounts :: tr) := by
  obtain ⟨c, hc⟩ := hcl
  simp [fetch_all, fetchTry, htok, hc, hacc, hbody, hloop]

/-- Reduction of `fetch_all` to the loop when the loop raises: the raised
exception goes through the `except` clauses and the whole request fails. -/
theorem fetch_all_loop_error (cfg : Config) (up : Upstream)
    (payload : List (String × Json)) (accts : List Json)
    (e : PyExc) (tr : List UpReq)
    (htok : (tokenOf payload).truthy = true)
    (hcl : ∃ c, _make_client cfg (tokenOf payload) = .ok c)
    (hacc : is2xx up.accounts.status = true)
    (hbody : up.accounts.body = Json.arr accts)
    (hloop : processAccts up (countOf payload) accts = (.error e, tr)) :
    fetch_all cfg up payload = (.error (handleExc e), .listAccounts :: tr) := by
  obtain ⟨c, hc⟩ := hcl
  simp [fetch_all, fetchTry, htok, hc, hacc, hbody, hloop]

theorem resultOf_isSome_eq_id_truthy (up : Upstream) (mc a : Json)
    (h : entryOk up mc a = true) :
    (resultOf up mc a).isSome = (idOfEntry a).truthy := by
  cases a with
  | obj fields =>
    simp only [resultOf, idOfEntry, jfield]
    cases hid : (dictGet fields "id").truthy <;> simp [hid]
  | null => simp [entryOk] at h
  | bool b => simp [entryOk] at h
  | num n => simp [entryOk] at h
  | str s => simp [entryOk] at h
  | arr l => simp [entryOk] at h

theorem length_filterMap_resultOf (up : Upstream) (mc : Json) (l : List Json)
    (h : ∀ a ∈ l, entryOk up mc a = true) :
    (l.filterMap (resultOf up mc)).length =
      l.countP (fun a => (idOfEntry a).truthy) := by
  induction l with
  | nil => simp
  | cons a rest ih =>
    have ha : entryOk up mc a = true := h a (by simp)
    have hr := ih (fun x hx => h x (by simp [hx]))
    have hs := resultOf_isSome_eq_id_truthy up mc a ha
    rcases ho : resultOf up mc a with _ | j
    · rw [ho] at hs
      simp [List.filterMap_cons, ho, List.countP_cons, hr, ← hs]
    · rw [ho] at hs
      simp [List.filterMap_cons, ho, List.countP_cons, hr, ← hs]

/-- `.1`-only variant of `fetch_all_loop_error`, for use when only the loop's
error value (not its trace) is known. -/
theorem fetch_all_loop_error1 (cfg : Config) (up : Upstream)
    (payload : List (String × Json)) (accts : List Json) (e : PyExc)
    (htok : (tokenOf payload).truthy = true)
    (hcl : ∃ c, _make_client cfg (tokenOf payload) = .ok c)
    (hacc : is2xx up.accounts.status = true)
    (hbody : up.accounts.body = Json.arr accts)
    (hloop : (processAccts up (countOf payload) accts).1 = .error e) :
    (fetch_all cfg up payload).1 = .error (handleExc e) := by
  rcases hp : processAccts up (countOf payload) accts with ⟨r, tr⟩
  rw [hp] at hloop
  cases r with
  | error e2 =>
    injection hloop with he
    subst he
    rw [fetch_all_loop_error cfg up payload accts e2 tr htok hcl hacc hbody hp]
  | ok v => simp at hloop

/-- A dict entry with a truthy `id` whose balances or transactions response
is non-2xx makes `processAcct` raise `httpx.HTTPStatusError` with the status
and body text of the first failing response. -/
theorem processAcct_upstream_failure (up : Upstream) (mc : Json)
    (fields : List (String × Json))
    (hid : (dictGet fields "id").truthy = true)
    (hfail : ¬(is2xx (up.balances (dictGet fields "id")).status = true ∧
               is2xx (up.transactions (dictGet fields "id") mc).status = true)) :
    (processAcct up mc (Json.obj fields)).1 =
      .error (.httpStatusError
        (if is2xx (up.balances (dictGet fields "id")).status
         then up.transactions (dictGet fields "id") mc
         else up.balances (dictGet fields "id")).status
        (if is2xx (up.balances (dictGet fields "id")).status
         then up.transactions (dictGet fields "id") mc
         else up.balances (dictGet fields "id")).text) := by
  by_cases hb : is2xx (up.balances (dictGet fields "id")).status = true
  · have ht : is2xx (up.transactions (dictGet fields "id") mc).status = false := by
      cases hcase : is2xx (up.transactions (dictGet fields "id") mc).status
      · rfl
      · exact absurd ⟨hb, hcase⟩ hfail
    simp [processAcct, hid, hb, ht]
  · have hb2 : is2xx (up.balances (dictGet fields "id")).status = false := by
      cases hcase : is2xx (up.balances (dictGet fields "id")).status
      · rfl
      · exact absurd hcase hb
    simp [processAcct, hid, hb2]

/-- Every request in one loop iteration's trace is a balances call or a
transactions call carrying exactly the loop's `max_count`. -/
theorem mem_trace_processAcct (up : Upstream) (mc a : Json) (r : UpReq)
    (h : r ∈ (processAcct up mc a).2) :
    ∃ i, r = .getBalances i ∨ r = .getTransactions i mc := by
  cases a with
  | obj fields =>
    simp only [processAcct] at h
    by_cases hid : (dictGet fields "id").truthy
    · simp only [hid, Bool.not_true, Bool.false_eq_true, if_false] at h
      by_cases hb : is2xx (up.balances (dictGet fields "id")).status
      · simp only [hb, Bool.not_true, Bool.false_eq_true, if_false] at h
        by_cases ht : is2xx (up.transactions (dictGet fields "id") mc).status
        · simp only [ht, Bool.not_true, Bool.false_eq_true, if_false] at h
          have h2 : r ∈ [UpReq.getBalances (dictGet fields "id"),
              UpReq.getTransactions (dictGet fields "id") mc] := by
            rcases hg : pyGet (pyOrEmptyDict (dictGet fields "institution")) "name" with e | v
            all_goals rw [hg] at h
            · exact h
            rcases hg2 : pyGet (pyOrEmptyDict (up.balances (dictGet fields "id")).body)
                "available" with e | v2
            all_goals rw [hg2] at h
            · exact h
            rcases hg3 : pyGet (pyOrEmptyDict (up.balances (dictGet fields "id")).body)
                "ledger" with e | v3
            all_goals rw [hg3] at h
            · exact h
            · exact h
          simp at h2
          rcases h2 with h2 | h2
          · exact ⟨dictGet fields "id", Or.inl h2⟩
          · exact ⟨dictGet fields "id", Or.inr h2⟩
        · simp only [ht, Bool.not_false, if_true] at h
          simp at h
          rcases h with h | h
          · exact ⟨dictGet fields "id", Or.inl h⟩
          · exact ⟨dictGet fields "id", Or.inr h⟩
      · simp only [hb, Bool.not_false, if_true] at h
        simp at h
        exact ⟨dictGet fields "id", Or.inl h⟩
    · simp only [hid, Bool.not_false, if_true] at h
      simp at h
  | null => simp [processAcct] at h
  | bool b => simp [processAcct] at h
  | num n => simp [processAcct] at h
  | str s => simp [processAcct] at h
  | arr l => simp [processAcct] at h

/-- Every request in the loop's trace is a balances call or a transactions
call carrying exactly `max_count`. -/
theorem mem_trace_processAccts (up : Upstream) (mc : Json) (l : List Json)
    (r : UpReq) (h : r ∈ (processAccts up mc l).2) :
    ∃ i, r = .getBalances i ∨ r = .getTransactions i mc := by
  induction l with
  | nil => simp [processAccts] at h
  | cons a rest ih =>
    rcases hp : processAcct up mc a with ⟨ra, tra⟩
    have hmem : r ∈ tra ∨ r ∈ (processAccts up mc rest).2 := by
      rcases hq : processAccts up mc rest with ⟨rr, trr⟩
      cases ra with
      | error e =>
        simp [processAccts, hp] at h
        exact Or.inl h
      | ok v =>
        cases v with
        | none =>
          simp [processAccts, hp, hq] at h ⊢
          exact h
        | some j =>
          cases rr <;> simp [processAccts, hp, hq] at h ⊢ <;> exact h
    rcases hmem with hm | hm
    · exact mem_trace_processAcct up mc a r (by rw [hp]; exact hm)
    · exact ih hm

/-- The `try:` block's outcome does not depend on the access token: the
token is only stored in the client's auth pair, which nothing reads. -/
theorem fetchTry_token_irrelevant (cfg : Config) (up : Upstream)
    (mc t1 t2 : Json) :
    fetchTry cfg up t1 mc = fetchTry cfg up t2 mc := by
  simp only [fetchTry, _make_client]
  by_cases he : (cfg.env = "development" || cfg.env = "production") = true
  · simp only [he, if_true]
    by_cases hm : (!optTruthy cfg.certPath || !optTruthy cfg.keyPath) = true
    · simp [hm]
    · simp only [Bool.not_eq_true] at hm
      simp [hm]
  · simp only [Bool.not_eq_true] at he
    simp [he]

/-- **C4**: whenever the request body's `accessToken` is absent, `null` or
the empty string (all of which make its truthiness false), `/api/fetch`
answers 400 with the "Missing accessToken" detail, issues no upstream
request, and the outcome does not depend on the configuration or the
upstream at all (no client is ever constructed). -/
theorem C4_missing_token_400_no_calls (cfg : Config) (up : Upstream)
    (payload : List (String × Json))
    (h : (tokenOf payload).truthy = false) :
    fetch_all cfg up payload = (.error ⟨400, missingTokenMsg⟩, []) := by
  simp [fetch_all, h]

/-- Witness for C4 at the concrete body `{"accessToken": ""}`. -/
theorem C4_missing_token_400_no_calls_witness :
    (tokenOf [("accessToken", Json.str "")]).truthy = false ∧
    fetch_all cfgSandbox upHealthy [("accessToken", Json.str "")] =
      (.error ⟨400, missingTokenMsg⟩, []) :=
  ⟨rfl, C4_missing_token_400_no_calls cfgSandbox upHealthy
    [("accessToken", Json.str "")] rfl⟩

/-- **C6**: in development/production (elevated) mode with a falsy
certificate or key path, client construction raises `RuntimeError` before
any upstream request, and the handler's catch-all surfaces it to the caller
as a 500 internal error (not a caller-input error). -/
theorem C6_elevated_missing_cert_500_before_calls (cfg : Config)
    (up : Upstream) (payload : List (String × Json))
    (htok : (tokenOf payload).truthy = true)
    (helev : cfg.env = "development" ∨ cfg.env = "production")
    (hmiss : optTruthy cfg.certPath = false ∨ optTruthy cfg.keyPath = false) :
    fetch_all cfg up payload =
      (.error ⟨500,
        "TELLER_CERT_PATH and TELLER_KEY_PATH are required in development/production."⟩,
       []) := by
  have henv : (cfg.env = "development" || cfg.env = "production") = true := by
    rcases helev with h | h <;> simp [h]
  have hm : (!optTruthy cfg.certPath || !optTruthy cfg.keyPath) = true := by
    rcases hmiss with h | h <;> simp [h]
  simp [fetch_all, fetchTry, _make_client, htok, henv, hm, handleExc]

/-- Witness for C6: production mode, no cert paths, token `"t"`. -/
theorem C6_elevated_missing_cert_500_before_calls_witness :
    (tokenOf [("accessToken", Json.str "t")]).truthy = true ∧
    cfgProdNoCert.env = "production" ∧
    optTruthy cfgProdNoCert.certPath = false ∧
    fetch_all cfgProdNoCert upHealthy [("accessToken", Json.str "t")] =
      (.error ⟨500,
        "TELLER_CERT_PATH and TELLER_KEY_PATH are required in development/production."⟩,
       []) :=
  ⟨rfl, rfl, rfl, C6_elevated_missing_cert_500_before_calls cfgProdNoCert
    upHealthy [("accessToken", Json.str "t")] rfl (Or.inr rfl) (Or.inl rfl)⟩

/-- **C2** (what the code actually does at the failing input): a 2xx
accounts response whose body is a dict, not a list, makes line 106 raise
`HTTPException(502, "Unexpected accounts payload")` — but that exception is
itself caught by the `except Exception` clause at line 147 and re-raised as
a **500** whose detail is `str(e) = "502: Unexpected accounts payload"`.
The caller therefore sees status 500, not the 502 the spec (and line 106)
intend. -/
theorem C2_nonlist_accounts_wrapped_to_500 :
    fetch_all cfgSandbox upAccountsNotList [("accessToken", Json.str "t")] =
      (.error ⟨500, "502: Unexpected accounts payload"⟩, [.listAccounts]) ∧
    (500 : Nat) ≠ 502 :=
  ⟨rfl, by decide⟩

/-- **C1**: if, after a prefix of successfully processed entries, an
identified account's balances call — or its transactions call — returns a
non-2xx status, the whole aggregation fails with the upstream error: the
surfaced status is the failing response's status, the detail appends its
body text, and no (partial) success value is returned. -/
theorem C1_per_account_upstream_failure_aborts_all (cfg : Config)
    (up : Upstream) (payload : List (String × Json))
    (l1 l2 : List Json) (fields : List (String × Json))
    (htok : (tokenOf payload).truthy = true)
    (hcl : ∃ c, _make_client cfg (tokenOf payload) = .ok c)
    (hacc : is2xx up.accounts.status = true)
    (hbody : up.accounts.body = Json.arr (l1 ++ Json.obj fields :: l2))
    (hpre : ∀ a ∈ l1, entryOk up (countOf payload) a = true)
    (hid : (dictGet fields "id").truthy = true)
    (hfail : ¬(is2xx (up.balances (dictGet fields "id")).status = true ∧
               is2xx (up.transactions (dictGet fields "id")
                 (countOf payload)).status = true)) :
    (fetch_all cfg up payload).1 =
      .error ⟨(if is2xx (up.balances (dictGet fields "id")).status
               then up.transactions (dictGet fields "id") (countOf payload)
               else up.balances (dictGet fields "id")).status,
        "Teller API error [" ++
          toString (if is2xx (up.balances (dictGet fields "id")).status
               then up.transactions (dictGet fields "id") (countOf payload)
               else up.balances (dictGet fields "id")).status ++ "]: " ++
          (if is2xx (up.balances (dictGet fields "id")).status
               then up.transactions (dictGet fields "id") (countOf payload)
               else up.balances (dictGet fields "id")).text⟩ := by
  have h1 := processAcct_upstream_failure up (countOf payload) fields hid hfail
  have h2 := processAccts_cons_error up (countOf payload) (Json.obj fields) l2 _ h1
  have h3 : (processAccts up (countOf payload)
      (l1 ++ Json.obj fields :: l2)).1 = .error
        (.httpStatusError
          (if is2xx (up.balances (dictGet fields "id")).status
           then up.transactions (dictGet fields "id") (countOf payload)
           else up.balances (dictGet fields "id")).status
          (if is2xx (up.balances (dictGet fields "id")).status
           then up.transactions (dictGet fields "id") (countOf payload)
           else up.balances (dictGet fields "id")).text) := by
    rw [processAccts_append_of_entryOk up (countOf payload) l1 _ hpre]
    rw [h2]
    rfl
  have h4 := fetch_all_loop_error1 cfg up payload _ _ htok hcl hacc hbody h3
  rw [h4]
  rfl

/-- Witness for C1: two accounts, the second one's balances call fails with
503; the whole request fails with status 503 and the upstream body text. -/
theorem C1_per_account_upstream_failure_aborts_all_witness :
    (fetch_all cfgSandbox upBalance503 [("accessToken", Json.str "t")]).1 =
      .error ⟨503, "Teller API error [503]: upstream down"⟩ := by
  have h := C1_per_account_upstream_failure_aborts_all cfgSandbox upBalance503
    [("accessToken", Json.str "t")] [acctChecking] [] [("id", Json.str "a2")]
    rfl ⟨_, rfl⟩ rfl rfl
    (by intro a ha
        simp only [List.mem_singleton] at ha
        subst ha
        rfl)
    rfl
    (by intro hco
        exact absurd hco.1 (by decide))
  exact h

/-- **C10**: if the 2xx accounts body is a list but some entry (after a
successfully processed prefix) is not a dict, the loop's `acct.get("id")`
raises `AttributeError`; the catch-all surfaces it as a 500 internal error —
the entry is not skipped the way an identifier-less dict entry is. -/
theorem C10_nonmapping_entry_500 (cfg : Config) (up : Upstream)
    (payload : List (String × Json)) (l1 l2 : List Json) (a : Json)
    (htok : (tokenOf payload).truthy = true)
    (hcl : ∃ c, _make_client cfg (tokenOf payload) = .ok c)
    (hacc : is2xx up.accounts.status = true)
    (hbody : up.accounts.body = Json.arr (l1 ++ a :: l2))
    (hpre : ∀ x ∈ l1, entryOk up (countOf payload) x = true)
    (hna : a.isObj = false) :
    (fetch_all cfg up payload).1 = .error ⟨500, noGetAttrMsg a⟩ := by
  have h1 : (processAcct up (countOf payload) a).1 =
      .error (.attributeError (noGetAttrMsg a)) := by
    cases a with
    | obj fields => simp [Json.isObj] at hna
    | null => rfl
    | bool b => rfl
    | num n => rfl
    | str s => rfl
    | arr l => rfl
  have h2 := processAccts_cons_error up (countOf payload) a l2 _ h1
  have h3 : (processAccts up (countOf payload) (l1 ++ a :: l2)).1 =
      .error (.attributeError (noGetAttrMsg a)) := by
    rw [processAccts_append_of_entryOk up (countOf payload) l1 _ hpre]
    rw [h2]
    rfl
  have h4 := fetch_all_loop_error1 cfg up payload _ _ htok hcl hacc hbody h3
  rw [h4]
  rfl

/-- Witness for C10: the second listed entry is the bare string `"oops"`;
the request fails with 500 and the `AttributeError` message. -/
theorem C10_nonmapping_entry_500_witness :
    (Json.str "oops").isObj = false ∧
    (fetch_all cfgSandbox upEntryNotDict [("accessToken", Json.str "t")]).1 =
      .error ⟨500, noGetAttrMsg (Json.str "oops")⟩ :=
  ⟨rfl, C10_nonmapping_entry_500 cfgSandbox upEntryNotDict
    [("accessToken", Json.str "t")] [acctChecking] [] (Json.str "oops")
    rfl ⟨_, rfl⟩ rfl rfl
    (by intro x hx
        simp only [List.mem_singleton] at hx
        subst hx
        rfl)
    rfl⟩

/-- **C3**: when the accounts body is a valid list and every entry
processes cleanly (2xx balance and transaction calls, well-shaped nested
objects), the request succeeds with exactly one assembled result per entry
whose `id` is truthy, in listing order (the `filterMap` over the listing),
and identifier-less entries are skipped without error: the result count
equals the number of entries with a truthy `id`. -/
theorem C3_one_result_per_identified_account (cfg : Config) (up : Upstream)
    (payload : List (String × Json)) (accts : List Json)
    (htok : (tokenOf payload).truthy = true)
    (hcl : ∃ c, _make_client cfg (tokenOf payload) = .ok c)
    (hacc : is2xx up.accounts.status = true)
    (hbody : up.accounts.body = Json.arr accts)
    (hall : ∀ a ∈ accts, entryOk up (countOf payload) a = true) :
    fetch_all cfg up payload =
      (.ok (Json.obj [("accounts",
        Json.arr (accts.filterMap (resultOf up (countOf payload))))]),
       .listAccounts :: accts.flatMap (traceOfEntry up (countOf payload))) ∧
    (accts.filterMap (resultOf up (countOf payload))).length =
      accts.countP (fun a => (idOfEntry a).truthy) :=
  ⟨fetch_all_loop_ok cfg up payload accts _ _ htok hcl hacc hbody
    (processAccts_of_entryOk up (countOf payload) accts hall),
   length_filterMap_resultOf up (countOf payload) accts hall⟩

/-- Witness for C3: the healthy single-account upstream, plus an
identifier-less entry that is skipped. -/
theorem C3_one_result_per_identified_account_witness :
    (fetch_all cfgSandbox upHealthy [("accessToken", Json.str "tok")] =
      (.ok (Json.obj [("accounts",
        Json.arr ([acctChecking].filterMap
          (resultOf upHealthy (countOf [("accessToken", Json.str "tok")]))))]),
       .listAccounts :: [acctChecking].flatMap
         (traceOfEntry upHealthy (countOf [("accessToken", Json.str "tok")])))) ∧
    ([acctChecking].filterMap
        (resultOf upHealthy (countOf [("accessToken", Json.str "tok")]))).length =
      [acctChecking].countP (fun a => (idOfEntry a).truthy) :=
  C3_one_result_per_identified_account cfgSandbox upHealthy
    [("accessToken", Json.str "tok")] [acctChecking]
    rfl ⟨_, rfl⟩ rfl rfl
    (by intro a ha
        simp only [List.mem_singleton] at ha
        subst ha
        rfl)

/-- **C7**: an identified account whose transactions call is 2xx with a
non-list body produces a normal result record whose `transactions` field is
the empty list — no error is raised for that account. -/
theorem C7_nonlist_transactions_normalized_empty (up : Upstream) (mc : Json)
    (fields : List (String × Json))
    (hid : (dictGet fields "id").truthy = true)
    (hb : is2xx (up.balances (dictGet fields "id")).status = true)
    (ht : is2xx (up.transactions (dictGet fields "id") mc).status = true)
    (hnt : (up.transactions (dictGet fields "id") mc).body.isArr = false)
    (hinst : (pyOrEmptyDict (dictGet fields "institution")).isObj = true)
    (hbal : (pyOrEmptyDict (up.balances (dictGet fields "id")).body).isObj = true) :
    ∃ j tr, processAcct up mc (Json.obj fields) = (.ok (some j), tr) ∧
      jfield j "transactions" = Json.arr [] := by
  have hok : entryOk up mc (Json.obj fields) = true := by
    simp [entryOk, hid, hb, ht, hinst, hbal]
  rcases hr : resultOf up mc (Json.obj fields) with _ | j
  · exfalso
    simp [resultOf, hid] at hr
  · refine ⟨j, traceOfEntry up mc (Json.obj fields), ?_, ?_⟩
    · rw [processAcct_of_entryOk up mc _ hok, hr]
    · simp only [resultOf, hid, Bool.not_true, Bool.false_eq_true, if_false,
        hnt, Option.some.injEq] at hr
      subst hr
      rfl

/-- Witness for C7: `upTxObj` returns a dict for transactions; the account
record is assembled with an empty transactions list. -/
theorem C7_nonlist_transactions_normalized_empty_witness :
    ((upTxObj.transactions (dictGet [("id", Json.str "a1"),
        ("name", Json.str "Checking"),
        ("institution", Json.obj [("name", Json.str "Chase")]),
        ("last_four", Json.str "1234"),
        ("type", Json.str "depository")] "id") (Json.num 50)).body.isArr = false) ∧
    ∃ j tr, processAcct upTxObj (Json.num 50) acctChecking = (.ok (some j), tr) ∧
      jfield j "transactions" = Json.arr [] :=
  ⟨rfl, C7_nonlist_transactions_normalized_empty upTxObj (Json.num 50)
    [("id", Json.str "a1"), ("name", Json.str "Checking"),
     ("institution", Json.obj [("name", Json.str "Chase")]),
     ("last_four", Json.str "1234"), ("type", Json.str "depository")]
    rfl rfl rfl rfl rfl rfl⟩

/-- **C8**: the output `institution` field is the `name` binding of the
entry's nested institution dict when that dict is present (`null` when the
dict has no `name`), and is `null` when the institution field is `null` or
missing; in both cases the account still assembles without error. -/
theorem C8_institution_extraction (up : Upstream) (mc : Json)
    (fields : List (String × Json))
    (hid : (dictGet fields "id").truthy = true)
    (hb : is2xx (up.balances (dictGet fields "id")).status = true)
    (ht : is2xx (up.transactions (dictGet fields "id") mc).status = true)
    (hbal : (pyOrEmptyDict (up.balances (dictGet fields "id")).body).isObj = true) :
    (∀ ifs, dictGet fields "institution" = Json.obj ifs →
      ∃ j tr, processAcct up mc (Json.obj fields) = (.ok (some j), tr) ∧
        jfield (jfield j "account") "institution" = dictGet ifs "name") ∧
    (dictGet fields "institution" = Json.null →
      ∃ j tr, processAcct up mc (Json.obj fields) = (.ok (some j), tr) ∧
        jfield (jfield j "account") "institution" = Json.null) := by
  constructor
  · intro ifs hif
    have hinst : (pyOrEmptyDict (dictGet fields "institution")).isObj = true := by
      rw [hif]
      by_cases hne : (Json.obj ifs).truthy <;> simp [pyOrEmptyDict, hne, Json.isObj]
    have hok : entryOk up mc (Json.obj fields) = true := by
      simp [entryOk, hid, hb, ht, hinst, hbal]
    rcases hr : resultOf up mc (Json.obj fields) with _ | j
    · exfalso
      simp [resultOf, hid] at hr
    · refine ⟨j, traceOfEntry up mc (Json.obj fields), ?_, ?_⟩
      · rw [processAcct_of_entryOk up mc _ hok, hr]
      · simp only [resultOf, hid, Bool.not_true, Bool.false_eq_true, if_false,
          Option.some.injEq] at hr
        subst hr
        show jfield (pyOrEmptyDict (dictGet fields "institution")) "name" =
          dictGet ifs "name"
        rw [hif]
        cases ifs with
        | nil => rfl
        | cons f rest => rfl
  · intro hif
    have hinst : (pyOrEmptyDict (dictGet fields "institution")).isObj = true := by
      rw [hif]
      rfl
    have hok : entryOk up mc (Json.obj fields) = true := by
      simp [entryOk, hid, hb, ht, hinst, hbal]
    rcases hr : resultOf up mc (Json.obj fields) with _ | j
    · exfalso
      simp [resultOf, hid] at hr
    · refine ⟨j, traceOfEntry up mc (Json.obj fields), ?_, ?_⟩
      · rw [processAcct_of_entryOk up mc _ hok, hr]
      · simp only [resultOf, hid, Bool.not_true, Bool.false_eq_true, if_false,
          Option.some.injEq] at hr
        subst hr
        show jfield (pyOrEmptyDict (dictGet fields "institution")) "name" =
          Json.null
        rw [hif]
        rfl

/-- Witness for C8, applying it both to an entry with institution
`{"name": "Chase"}` and to an entry with a `null` institution. -/
theorem C8_institution_extraction_witness :
    (∃ j tr, processAcct upHealthy (Json.num 50) acctChecking =
        (.ok (some j), tr) ∧
      jfield (jfield j "account") "institution" =
        dictGet [("name", Json.str "Chase")] "name") ∧
    (∃ j tr, processAcct upHealthy (Json.num 50)
        (Json.obj [("id", Json.str "a9"), ("institution", Json.null)]) =
        (.ok (some j), tr) ∧
      jfield (jfield j "account") "institution" = Json.null) :=
  ⟨(C8_institution_extraction upHealthy (Json.num 50)
      [("id", Json.str "a1"), ("name", Json.str "Checking"),
       ("institution", Json.obj [("name", Json.str "Chase")]),
       ("last_four", Json.str "1234"), ("type", Json.str "depository")]
      rfl rfl rfl rfl).1 [("name", Json.str "Chase")] rfl,
   (C8_institution_extraction upHealthy (Json.num 50)
      [("id", Json.str "a9"), ("institution", Json.null)]
      rfl rfl rfl rfl).2 rfl⟩

/-- Every request in the `try:` block's trace is the accounts listing, a
balances call, or a transactions call carrying exactly `max_count`. -/
theorem mem_trace_fetchTry (cfg : Config) (up : Upstream) (tok mc : Json)
    (r : UpReq) (h : r ∈ (fetchTry cfg up tok mc).2) :
    r = .listAccounts ∨ ∃ i, r = .getBalances i ∨ r = .getTransactions i mc := by
  simp only [fetchTry] at h
  split at h
  · simp at h
  · split at h
    · simp at h
      exact Or.inl h
    · split at h
      · rename_i accounts hbd
        split at h
        · rename_i results tr heq
          simp at h
          rcases h with h | h
          · exact Or.inl h
          · exact Or.inr
              (mem_trace_processAccts up mc accounts r (by rw [heq]; exact h))
        · rename_i e tr heq
          simp at h
          rcases h with h | h
          · exact Or.inl h
          · exact Or.inr
              (mem_trace_processAccts up mc accounts r (by rw [heq]; exact h))
      · simp at h
        exact Or.inl h

/-- **C5 counterexample**: with the body `{"accessToken": "tok", "count": 0}`
the caller *has* supplied a `maxTransactionCount` value (0), yet the
transactions call carries 50, not 0 — `payload.get("count") or 50` treats
the falsy 0 as absent. -/
theorem C5_counterexample_supplied_zero_count :
    (fetch_all cfgSandbox upHealthy
        [("accessToken", Json.str "tok"), ("count", Json.num 0)]).2 =
      [.listAccounts, .getBalances (Json.str "a1"),
       .getTransactions (Json.str "a1") (Json.num 50)] ∧
    Json.num 50 ≠ Json.num 0 :=
  ⟨rfl, by simp⟩

/-- **C5 amended**: every transactions call carries exactly
`payload.get("count") or 50`: the supplied `count` whenever it is truthy
(in particular any positive integer), and the default 50 when `count` is
absent or falsy (`null`, `0`, `false`, `""`, ...). -/
theorem C5_amended_transactions_carry_effective_count (cfg : Config)
    (up : Upstream) (payload : List (String × Json)) (i c : Json)
    (h : UpReq.getTransactions i c ∈ (fetch_all cfg up payload).2) :
    c = countOf payload ∧
    ((dictGet payload "count").truthy = true → c = dictGet payload "count") ∧
    ((dictGet payload "count").truthy = false → c = Json.num 50) := by
  have hc : c = countOf payload := by
    by_cases htok : (tokenOf payload).truthy
    · have htrace : (fetch_all cfg up payload).2 =
          (fetchTry cfg up (tokenOf payload) (countOf payload)).2 := by
        rcases hf : fetchTry cfg up (tokenOf payload) (countOf payload) with ⟨r, tr⟩
        cases r <;> simp [fetch_all, htok, hf]
      rw [htrace] at h
      rcases mem_trace_fetchTry cfg up _ _ _ h with h2 | ⟨i2, h2 | h2⟩
      · exact absurd h2 (by simp)
      · exact absurd h2 (by simp)
      · injection h2 with _ hcc
    · simp only [Bool.not_eq_true] at htok
      have : (fetch_all cfg up payload).2 = [] := by
        simp [fetch_all, htok]
      rw [this] at h
      simp at h
  refine ⟨hc, ?_, ?_⟩
  · intro htr
    rw [hc]
    simp [countOf, htr]
  · intro htr
    rw [hc]
    simp [countOf, htr]

/-- Witness for the amended C5: with `count: 10` supplied, the transactions
call in the trace carries exactly 10. -/
theorem C5_amended_transactions_carry_effective_count_witness :
    UpReq.getTransactions (Json.str "a1") (Json.num 10) ∈
      (fetch_all cfgSandbox upHealthy
        [("accessToken", Json.str "tok"), ("count", Json.num 10)]).2 ∧
    Json.num 10 =
      countOf [("accessToken", Json.str "tok"), ("count", Json.num 10)] := by
  have hm : UpReq.getTransactions (Json.str "a1") (Json.num 10) ∈
      (fetch_all cfgSandbox upHealthy
        [("accessToken", Json.str "tok"), ("count", Json.num 10)]).2 :=
    List.Mem.tail _ (List.Mem.tail _ (List.Mem.head _))
  exact ⟨hm, (C5_amended_transactions_carry_effective_count cfgSandbox upHealthy
    [("accessToken", Json.str "tok"), ("count", Json.num 10)]
    (Json.str "a1") (Json.num 10) hm).1⟩

/-- **C9 counterexample**: the handler appends the upstream body text
verbatim, so when the upstream response happens to echo the access token
(`"tok"`), the error detail surfaced to the caller contains the token — the
detail decomposes as a string containing `"tok"`. -/
theorem C9_counterexample_upstream_echoes_token :
    fetch_all cfgSandbox upAccounts404Echo [("accessToken", Json.str "tok")] =
      (.error ⟨404, "Teller API error [404]: tok"⟩, [.listAccounts]) ∧
    "Teller API error [404]: tok" = "Teller API error [404]: " ++ "tok" ++ "" :=
  ⟨rfl, rfl⟩

/-- **C9 amended**: the handler itself never incorporates the token into an
error: the entire outcome (error text included) is a function of the
configuration, the upstream responses and constants only — two requests
that differ solely in their (truthy) access token produce identical
outcomes.  Token text can thus reach error text only if the upstream echoes
it (or a constant happens to contain it), never from the handler. -/
theorem C9_amended_outcome_independent_of_token (cfg : Config)
    (up : Upstream) (rest : List (String × Json)) (t1 t2 : Json)
    (h1 : t1.truthy = true) (h2 : t2.truthy = true) :
    fetch_all cfg up (("accessToken", t1) :: rest) =
      fetch_all cfg up (("accessToken", t2) :: rest) := by
  have ec : countOf (("accessToken", t1) :: rest) =
      countOf (("accessToken", t2) :: rest) := rfl
  have e1 : tokenOf (("accessToken", t1) :: rest) = t1 := rfl
  have e2 : tokenOf (("accessToken", t2) :: rest) = t2 := rfl
  simp only [fetch_all, e1, e2, h1, h2, Bool.not_true, Bool.false_eq_true,
    if_false, ec]
  rw [fetchTry_token_irrelevant cfg up (countOf (("accessToken", t2) :: rest)) t1 t2]

/-- Witness for the amended C9: tokens `"A"` and `"B"` against the failing
upstream yield identical outcomes. -/
theorem C9_amended_outcome_independent_of_token_witness :
    (Json.str "A").truthy = true ∧
    fetch_all cfgSandbox upAccounts404Echo [("accessToken", Json.str "A")] =
      fetch_all cfgSandbox upAccounts404Echo [("accessToken", Json.str "B")] :=
  ⟨rfl, C9_amended_outcome_independent_of_token cfgSandbox upAccounts404Echo []
    (Json.str "A") (Json.str "B") rfl rfl⟩
